import Mathlib

/-!
Shallow embedding of the BotIT fleet-triage backend
(src/backend/processing.py, src/backend/main1.py,
src/backend/chatboot/retrieval.py, src/backend/chatboot/main.py)
together with theorems settling the frozen claims about it.

Conventions used throughout the embedding:
* pandas / numpy floats are modelled as rationals; NaN is modelled
  explicitly (as a missing value) where the code can meet it,
* fallible code (pandas KeyError, TypeError, masking with NA) is
  modelled in the Except monad,
* calls to external services (the GPT generator, the embedding model,
  numpy random draws) are modelled as explicit oracle parameters: their
  outputs are unconstrained inputs of the embedded functions.
-/

namespace BotIT

/-- Python `str.lower` (also pandas `Series.str.lower` elementwise), defined
over the character data so that concrete instances reduce in the kernel. -/
def lowerStr (s : String) : String := ⟨s.data.map Char.toLower⟩

/-- Python `str.strip()` with no argument: remove leading and trailing
whitespace.  Used by the blank-query guard at retrieval.py:76. -/
def pyStrip (s : String) : String :=
  ⟨(((s.data.dropWhile Char.isWhitespace).reverse).dropWhile Char.isWhitespace).reverse⟩

/-- Boolean substring test on character lists, structural recursion on the
haystack.  Models the Python `needle in haystack` membership test. -/
def listInfix : List Char → List Char → Bool
  | needle, [] => needle.isEmpty
  | needle, c :: rest => needle.isPrefixOf (c :: rest) || listInfix needle rest

/-- Python substring containment `needle in hay` (also pandas
`Series.str.contains` for a pattern without regex metacharacters, as used at
processing.py:167-176 with the literal patterns "critical", "important",
"moderate", "low" and "CVE-"). -/
def strContains (hay needle : String) : Bool :=
  listInfix needle.toList hay.toList

/-- Accumulator pass for `pySplitWs`: collect maximal runs of non-whitespace
characters. -/
def splitWsAux : List Char → List Char → List String
  | [], acc => if acc.isEmpty then [] else [⟨acc.reverse⟩]
  | c :: rest, acc =>
      if c.isWhitespace then
        if acc.isEmpty then splitWsAux rest []
        else (⟨acc.reverse⟩ : String) :: splitWsAux rest []
      else splitWsAux rest (c :: acc)

/-- Splitting a Python string with `str.split()` (no argument): split on runs
of whitespace, discarding empty fragments.  Used by the follow-up length
heuristic at chatboot/main.py:265. -/
def pySplitWs (s : String) : List String := splitWsAux s.data []

/-- numpy `np.clip(x, 0.0, 1.0)` as used at retrieval.py:86. -/
def clip01 (x : ℚ) : ℚ := max 0 (min 1 x)

/-!
## Row-level model of problem detection and scoring

`detect_problems_and_score` (processing.py:92-275) computes its flag, score,
severity, summary and count columns by vectorized per-row operations.  The
definitions below embed those operations for one row, after column resolution
and numeric coercion:
* `cpu`, `ram`, `disk` are the coerced numeric values (processing.py:138-144
  guarantees a finite number for each row: failed coercion falls back to the
  column median, or 0 when the median itself is NaN),
* `network`, `patch`, `cve` are optional strings; `none` models a NaN cell,
  which the corresponding predicates treat as failing (`isin` is false on
  NaN; the patch and CVE predicates conjoin `notna`),
* `severity` is a string.  A NaN severity cell is not modelled here because
  the vectorized pipeline cannot score it: `str.contains` leaves NA in the
  flag column and the boolean `.loc` masking at processing.py:199-202 then
  raises, so rows reaching the score/summary stage have string severities
  (see `vulnFlagCell`/`maskScores` in the table-level model below).
-/

structure MachineRecord where
  cpu : ℚ
  ram : ℚ
  disk : ℚ
  network : Option String
  patch : Option String
  severity : String
  cve : Option String

/-- processing.py:151 -- High_CPU is cpu > 85. -/
def High_CPU (r : MachineRecord) : Bool := decide (85 < r.cpu)

/-- processing.py:152 -- High_RAM is ram > 80. -/
def High_RAM (r : MachineRecord) : Bool := decide (80 < r.ram)

/-- processing.py:153 -- High_Disk is disk > 90. -/
def High_Disk (r : MachineRecord) : Bool := decide (90 < r.disk)

/-- processing.py:156 -- lowercased network status isin offline or
disconnected; `isin` is false on a NaN cell. -/
def Network_Offline (r : MachineRecord) : Bool :=
  match r.network with
  | none => false
  | some s => decide ((lowerStr s) = "offline" ∨ (lowerStr s) = "disconnected")

/-- processing.py:157 -- lowercased network status isin unstable or poor. -/
def Network_Unstable (r : MachineRecord) : Bool :=
  match r.network with
  | none => false
  | some s => decide ((lowerStr s) = "unstable" ∨ (lowerStr s) = "poor")

/-- processing.py:160-164 -- patch cell not NA, and its lowercase form is
neither "release notes" nor "unknown". -/
def Missing_Patch (r : MachineRecord) : Bool :=
  match r.patch with
  | none => false
  | some s => decide ((lowerStr s) ≠ "release notes" ∧ (lowerStr s) ≠ "unknown")

/-- processing.py:167 -- lowercased severity contains "critical". -/
def Critical_Vulnerability (r : MachineRecord) : Bool :=
  strContains (lowerStr r.severity) "critical"

/-- processing.py:168 -- lowercased severity contains "important". -/
def Important_Vulnerability (r : MachineRecord) : Bool :=
  strContains (lowerStr r.severity) "important"

/-- processing.py:169 -- lowercased severity contains "moderate". -/
def Moderate_Vulnerability (r : MachineRecord) : Bool :=
  strContains (lowerStr r.severity) "moderate"

/-- processing.py:170 -- lowercased severity contains "low". -/
def Low_Vulnerability (r : MachineRecord) : Bool :=
  strContains (lowerStr r.severity) "low"

/-- processing.py:173-177 -- CVE cell not NA, lowercase form differs from
"unknown", and the raw (not lowercased) cell contains "CVE-". -/
def Has_CVE (r : MachineRecord) : Bool :=
  match r.cve with
  | none => false
  | some s => decide ((lowerStr s) ≠ "unknown") && strContains s "CVE-"

/-- processing.py:184-205 -- the score starts at 0 and each detected flag adds
its weight, in source order: High_CPU +2, High_RAM +1.5, High_Disk +2,
Network_Offline +3, Network_Unstable +2, Missing_Patch +2,
Critical_Vulnerability +3, Important_Vulnerability +2,
Moderate_Vulnerability +1, Low_Vulnerability +0.5, Has_CVE +1. -/
def critical_score (r : MachineRecord) : ℚ :=
  (0 : ℚ)
  + (if High_CPU r then 2 else 0)
  + (if High_RAM r then 3/2 else 0)
  + (if High_Disk r then 2 else 0)
  + (if Network_Offline r then 3 else 0)
  + (if Network_Unstable r then 2 else 0)
  + (if Missing_Patch r then 2 else 0)
  + (if Critical_Vulnerability r then 3 else 0)
  + (if Important_Vulnerability r then 2 else 0)
  + (if Moderate_Vulnerability r then 1 else 0)
  + (if Low_Vulnerability r then 1/2 else 0)
  + (if Has_CVE r then 1 else 0)

/-- processing.py:212-216 -- `pd.cut(score, bins=[-1,3,5,7,100],
labels=["Low","Medium","High","Critical"])`: pd.cut with its default
`right=True` assigns the label of the left-exclusive right-inclusive interval
the value falls in, and NaN (here `none`) to any value outside the outermost
bin edges. -/
def severity_level (s : ℚ) : Option String :=
  if s ≤ -1 then none
  else if s ≤ 3 then some "Low"
  else if s ≤ 5 then some "Medium"
  else if s ≤ 7 then some "High"
  else if s ≤ 100 then some "Critical"
  else none

/-- processing.py:224-246 -- the ordered list of human-readable labels of the
detected problems for one row.  Note the source appends no label for
Low_Vulnerability. -/
def problem_issues (r : MachineRecord) : List String :=
  (if High_CPU r then ["High CPU usage"] else [])
  ++ (if High_RAM r then ["High RAM usage"] else [])
  ++ (if High_Disk r then ["Disk almost full"] else [])
  ++ (if Network_Offline r then ["Network disconnected"] else [])
  ++ (if Network_Unstable r then ["Network unstable"] else [])
  ++ (if Missing_Patch r then ["Missing security patch"] else [])
  ++ (if Critical_Vulnerability r then ["Critical vulnerability"] else [])
  ++ (if Important_Vulnerability r then ["Important vulnerability"] else [])
  ++ (if Moderate_Vulnerability r then ["Moderate vulnerability"] else [])
  ++ (if Has_CVE r then ["CVE identified"] else [])

/-- processing.py:248 -- the Problems cell: the issue labels joined by "; ",
or a fixed placeholder when no issue was detected. -/
def problems_text (r : MachineRecord) : String :=
  if problem_issues r = [] then "No issues detected"
  else String.intercalate "; " (problem_issues r)

/-- processing.py:253-264 -- Total_Problems: the sum of the ten listed flag
columns cast to integers (astype(int)).  Low_Vulnerability is not among the
summands in the source. -/
def Total_Problems (r : MachineRecord) : ℕ :=
  (High_CPU r).toNat + (High_RAM r).toNat + (High_Disk r).toNat
  + (Network_Offline r).toNat + (Network_Unstable r).toNat
  + (Missing_Patch r).toNat + (Critical_Vulnerability r).toNat
  + (Important_Vulnerability r).toNat + (Moderate_Vulnerability r).toNat
  + (Has_CVE r).toNat

/-!
## Table-level model

`process_data` and its helpers operate on a pandas DataFrame.  A DataFrame is
modelled as a named-column table of cells; a cell is NaN, a number, a string
or a boolean.  pandas operations that can raise (column access by a missing
name, the `.str` accessor on a non-object column, boolean masking with NA,
integer casts of NA) are modelled in the Except monad with the corresponding
error kind in the message.
-/

inductive Cell where
  | na
  | num (q : ℚ)
  | str (s : String)
  | bool (b : Bool)
deriving DecidableEq

/-- A DataFrame: column names, rows of cells (row i, column j is
`rows[i][j]`), and the `attrs` metadata dictionary used by processing.py to
pass resolved column names along. -/
structure Table where
  cols : List String
  rows : List (List Cell)
  attrs : List (String × String) := []
deriving DecidableEq

def Table.nrows (t : Table) : ℕ := t.rows.length

/-- Column selection `df[c]`: raises KeyError when the column is absent. -/
def Table.getCol (t : Table) (c : String) : Except String (List Cell) :=
  match t.cols.findIdx? (· == c) with
  | some i => .ok (t.rows.map (fun r => r.getD i Cell.na))
  | none => .error ("KeyError: " ++ c)

/-- Column read for columns known to exist (rows shorter than the header are
padded with NaN); yields an all-NaN column when the name is absent.  Only used
after presence has been established. -/
def Table.getColD (t : Table) (c : String) : List Cell :=
  match t.cols.findIdx? (· == c) with
  | some i => t.rows.map (fun r => r.getD i Cell.na)
  | none => t.rows.map (fun _ => Cell.na)

/-- Column assignment `df[c] = vals`: overwrite in place when the column
exists, otherwise append a new column on the right. -/
def Table.setCol (t : Table) (c : String) (vals : List Cell) : Table :=
  match t.cols.findIdx? (· == c) with
  | some i => { t with rows := List.zipWith (fun r v => r.set i v) t.rows vals }
  | none =>
      { t with cols := t.cols ++ [c],
               rows := List.zipWith (fun r v => r ++ [v]) t.rows vals }

/-- processing.py:278-285 `find_usage_columns`: the columns whose lowercased
name contains one of the keywords, in original column order. -/
def find_usage_columns (t : Table) (keywords : List String) : List String :=
  t.cols.filter (fun c => keywords.any (fun k => strContains (lowerStr c) k))

/-- Outputs of the `np.random` draws used to synthesize missing columns at
processing.py:115-126, one value per row index.  The spec declares the exact
distribution not load-bearing, so the draws enter the embedding as an
unconstrained oracle. -/
structure SynthData where
  cpuFill : ℕ → ℚ
  ramFill : ℕ → ℚ
  diskFill : ℕ → ℚ
  networkFill : ℕ → String
  patchFill : ℕ → String
  severityFill : ℕ → String

/-- processing.py:115-126 -- create the column when absent, filling each row
from the given generator. -/
def ensureCol (t : Table) (c : String) (mk : ℕ → Cell) : Table :=
  if t.cols.contains c then t
  else t.setCol c ((List.range t.nrows).map mk)

/-- Zero-padded sequential machine label, processing.py:135
(PC_ followed by the 1-based index padded to three digits). -/
def pad3 (n : ℕ) : String :=
  if n < 10 then "00" ++ toString n
  else if n < 100 then "0" ++ toString n
  else toString n

/-- processing.py:129-135 -- resolve the Computer ID column with priority
existing "Computer ID", then "ID", then "Computer", then a synthesized
sequential label. -/
def ensureComputerID (t : Table) : Table :=
  if t.cols.contains "Computer ID" then t
  else if t.cols.contains "ID" then t.setCol "Computer ID" (t.getColD "ID")
  else if t.cols.contains "Computer" then t.setCol "Computer ID" (t.getColD "Computer")
  else t.setCol "Computer ID"
    ((List.range t.nrows).map (fun i => Cell.str ("PC_" ++ pad3 (i + 1))))

/-- Numeric value of a run of decimal digits; none unless the run is
nonempty and all digits. -/
def digitsVal (l : List Char) : Option ℕ :=
  if !l.isEmpty && l.all Char.isDigit then
    some (l.foldl (fun n c => n * 10 + (c.toNat - 48)) 0)
  else none

/-- Integer parse of a string after stripping surrounding whitespace, with an
optional sign. -/
def parseIntStr (s : String) : Option ℤ :=
  match (pyStrip s).data with
  | '-' :: rest => (digitsVal rest).map (fun n => -(n : ℤ))
  | '+' :: rest => (digitsVal rest).map (fun n => (n : ℤ))
  | l => (digitsVal l).map (fun n => (n : ℤ))

/-- One cell of `pd.to_numeric(col, errors="coerce")`: numbers pass through,
booleans become 0/1, numeric-looking strings parse (integer strings in this
model; the claims do not depend on fractional string forms), anything else
coerces to NaN. -/
def toNumericCell : Cell → Cell
  | .num q => .num q
  | .bool b => .num (if b then 1 else 0)
  | .str s => match parseIntStr s with
      | some n => .num (n : ℚ)
      | none => .na
  | .na => .na

/-- Stable insertion of a value into an ascending-sorted list. -/
def insertAsc (x : ℚ) : List ℚ → List ℚ
  | [] => [x]
  | y :: ys => if x ≤ y then x :: y :: ys else y :: insertAsc x ys

/-- Ascending stable sort (insertion sort; only the sorted order matters to
the callers). -/
def sortedAsc (l : List ℚ) : List ℚ := l.foldr insertAsc []

/-- pandas `Series.median()` over the non-NaN values: middle element of the
sorted values, or the mean of the two middle elements; NaN (none) on an empty
series. -/
def medianQ (l : List ℚ) : Option ℚ :=
  let s := sortedAsc l
  let n := s.length
  if n = 0 then none
  else if n % 2 = 1 then some (s.getD (n / 2) 0)
  else some ((s.getD (n / 2 - 1) 0 + s.getD (n / 2) 0) / 2)

/-- processing.py:138-144 -- coerce a numeric column: to_numeric with
coercion, infinities replaced by NaN (ℚ has none, so that step is a no-op
here), then NaN filled with the column median, falling back to 0 when the
median itself is NaN. -/
def coerceNumericCol (cells : List Cell) : List Cell :=
  let c1 := cells.map toNumericCell
  let vals := c1.filterMap (fun c => match c with | .num q => some q | _ => none)
  let fill := (medianQ vals).getD 0
  c1.map (fun c => match c with | .na => Cell.num fill | c => c)

def isStrCell : Cell → Bool
  | .str _ => true
  | _ => false

/-- Guard modelling the pandas `.str` accessor: it works on object-dtype
columns (in a CSV-parsed frame, a column holding at least one string; an
empty column also has object dtype) and raises otherwise. -/
def requireStrAccessor (cells : List Cell) : Except String (List Cell) :=
  if cells.isEmpty || cells.any isStrCell then .ok cells
  else .error "AttributeError: Can only use .str accessor with string values"

/-- One cell of `col.str.lower().isin(words)` (processing.py:156-157): string
cells compare lowercased, NaN and non-string cells give False. -/
def isinLowerCell (words : List String) : Cell → Bool
  | .str s => words.contains (lowerStr s)
  | _ => false

/-- One cell of the Missing_Patch predicate (processing.py:160-164):
`notna & (str.lower != "release notes") & (str.lower != "unknown")`.
A NaN cell fails `notna`; a non-string cell in an object column passes (its
`.str.lower()` is NaN and NaN compared unequal to a string is True). -/
def patchFlagCell : Cell → Bool
  | .na => false
  | .str s => decide ((lowerStr s) ≠ "release notes" ∧ (lowerStr s) ≠ "unknown")
  | _ => true

/-- One cell of `col.str.lower().str.contains(needle)` (processing.py:167-170):
NA for NaN or non-string cells (str.contains propagates NA), a boolean
otherwise. -/
def vulnFlagCell (needle : String) : Cell → Cell
  | .str s => .bool (strContains (lowerStr s) needle)
  | _ => .na

/-- One cell of the Has_CVE predicate (processing.py:173-177):
`notna & (str.lower != "unknown") & str.contains("CVE-")`.  A NaN cell gives
False (False & NA collapses to False); a non-string cell gives NA
(True & NA stays NA); the "CVE-" containment is on the raw cell text. -/
def cveFlagCell : Cell → Cell
  | .na => .bool false
  | .str s => .bool (decide ((lowerStr s) ≠ "unknown") && strContains s "CVE-")
  | _ => .na

/-- One cell of a `> threshold` comparison on a coerced numeric column
(processing.py:151-153); NaN compares False. -/
def gtCell (threshold : ℚ) : Cell → Cell
  | .num q => .bool (decide (threshold < q))
  | _ => .bool false

/-- Boolean-mask scoring step `df.loc[df[flag], "Critical_Score"] += w`
(processing.py:187-205): raises when the mask holds NA or any non-boolean
value, otherwise adds the weight where the mask is True. -/
def maskAdd (scores : List ℚ) (mask : List Cell) (w : ℚ) : Except String (List ℚ) :=
  if mask.any (fun c => match c with | .bool _ => false | _ => true) then
    .error "ValueError: cannot mask with non-boolean array containing NA / NaN values"
  else
    .ok (List.zipWith (fun s c => if c = Cell.bool true then s + w else s) scores mask)

/-- Python truthiness of a cell as met by `if row[flag]:` at
processing.py:227-245 (note float NaN is truthy in Python). -/
def cellTruthy : Cell → Bool
  | .bool b => b
  | .na => true
  | .num q => decide (q ≠ 0)
  | .str s => !s.isEmpty

/-- `astype(int)` of a flag column (processing.py:254-263): booleans cast to
0/1, numbers pass (truncating casts do not arise here), NA or strings raise. -/
def intCastCol (cells : List Cell) : Except String (List ℚ) :=
  if cells.any (fun c => match c with | .bool _ => false | .num _ => false | _ => true) then
    .error "ValueError: cannot convert non-finite or non-numeric values to integer"
  else
    .ok (cells.map (fun c => match c with
      | .bool b => ((b.toNat : ℕ) : ℚ)
      | .num q => q
      | _ => 0))

/-- processing.py:92-275 `detect_problems_and_score`, table level: resolve
the seven telemetry columns, synthesize the missing ones (the source has
synthesis branches for cpu, ram, disk, network, patch and severity only --
there is no branch for the CVE column), resolve Computer ID, coerce the
numeric columns, compute the eleven flag columns, accumulate Critical_Score,
bin Severity_Level, build the Problems summary and Total_Problems, and record
the resolved names in attrs. -/
def detect_problems_and_score (rand : SynthData) (t : Table) : Except String Table := do
  -- column resolution, processing.py:97-112
  let cpu_col := (find_usage_columns t ["cpu", "processor", "processor usage"]).headD "CPU Usage (%)"
  let ram_col := (find_usage_columns t ["ram", "memory", "memory usage"]).headD "RAM Usage (%)"
  let disk_col := (find_usage_columns t ["disk", "storage", "disk usage", "storage usage"]).headD "Disk Usage (%)"
  let network_col := (find_usage_columns t ["network", "network status"]).headD "Network Status"
  let patch_col := (find_usage_columns t ["missingpatchs", "missingpatchskb", "patch"]).headD "MissingPatchsKB"
  let severity_col := (find_usage_columns t ["severity", "risk level"]).headD "Severity"
  let cve_col := (find_usage_columns t ["cve", "cve identifier"]).headD "CVE identifier(s)"
  -- synthesis of absent columns, processing.py:115-126 (cve_col absent here)
  let df := ensureCol t cpu_col (fun i => Cell.num (rand.cpuFill i))
  let df := ensureCol df ram_col (fun i => Cell.num (rand.ramFill i))
  let df := ensureCol df disk_col (fun i => Cell.num (rand.diskFill i))
  let df := ensureCol df network_col (fun i => Cell.str (rand.networkFill i))
  let df := ensureCol df patch_col (fun i => Cell.str (rand.patchFill i))
  let df := ensureCol df severity_col (fun i => Cell.str (rand.severityFill i))
  -- Computer ID, processing.py:129-135
  let df := ensureComputerID df
  -- numeric coercion, processing.py:138-144
  let df := df.setCol cpu_col (coerceNumericCol (df.getColD cpu_col))
  let df := df.setCol ram_col (coerceNumericCol (df.getColD ram_col))
  let df := df.setCol disk_col (coerceNumericCol (df.getColD disk_col))
  -- hardware flags, processing.py:151-153
  let df := df.setCol "High_CPU" ((df.getColD cpu_col).map (gtCell 85))
  let df := df.setCol "High_RAM" ((df.getColD ram_col).map (gtCell 80))
  let df := df.setCol "High_Disk" ((df.getColD disk_col).map (gtCell 90))
  -- network flags, processing.py:156-157
  let netCells ← requireStrAccessor (df.getColD network_col)
  let df := df.setCol "Network_Offline"
    (netCells.map (fun c => Cell.bool (isinLowerCell ["offline", "disconnected"] c)))
  let df := df.setCol "Network_Unstable"
    (netCells.map (fun c => Cell.bool (isinLowerCell ["unstable", "poor"] c)))
  -- patch flag, processing.py:160-164
  let patchCells ← requireStrAccessor (df.getColD patch_col)
  let df := df.setCol "Missing_Patch" (patchCells.map (fun c => Cell.bool (patchFlagCell c)))
  -- vulnerability flags, processing.py:167-170
  let sevCells ← requireStrAccessor (df.getColD severity_col)
  let df := df.setCol "Critical_Vulnerability" (sevCells.map (vulnFlagCell "critical"))
  let df := df.setCol "Important_Vulnerability" (sevCells.map (vulnFlagCell "important"))
  let df := df.setCol "Moderate_Vulnerability" (sevCells.map (vulnFlagCell "moderate"))
  let df := df.setCol "Low_Vulnerability" (sevCells.map (vulnFlagCell "low"))
  -- CVE flag, processing.py:173-177: df[cve_col] raises KeyError when the
  -- CVE column was neither found nor (anywhere in the source) synthesized
  let cveCells ← df.getCol cve_col
  let cveCells ← requireStrAccessor cveCells
  let df := df.setCol "Has_CVE" (cveCells.map cveFlagCell)
  -- scoring, processing.py:184-205
  let n := df.nrows
  let scores := (List.range n).map (fun _ => (0 : ℚ))
  let scores ← maskAdd scores (df.getColD "High_CPU") 2
  let scores ← maskAdd scores (df.getColD "High_RAM") (3/2)
  let scores ← maskAdd scores (df.getColD "High_Disk") 2
  let scores ← maskAdd scores (df.getColD "Network_Offline") 3
  let scores ← maskAdd scores (df.getColD "Network_Unstable") 2
  let scores ← maskAdd scores (df.getColD "Missing_Patch") 2
  let scores ← maskAdd scores (df.getColD "Critical_Vulnerability") 3
  let scores ← maskAdd scores (df.getColD "Important_Vulnerability") 2
  let scores ← maskAdd scores (df.getColD "Moderate_Vulnerability") 1
  let scores ← maskAdd scores (df.getColD "Low_Vulnerability") (1/2)
  let scores ← maskAdd scores (df.getColD "Has_CVE") 1
  let df := df.setCol "Critical_Score" (scores.map Cell.num)
  -- severity binning, processing.py:212-216
  let df := df.setCol "Severity_Level"
    (scores.map (fun q => match severity_level q with
      | some l => Cell.str l
      | none => Cell.na))
  -- problems summary, processing.py:222-250
  let flagAt := fun (name : String) (i : ℕ) => cellTruthy ((df.getColD name).getD i Cell.na)
  let issuesAt := fun (i : ℕ) =>
    (if flagAt "High_CPU" i then ["High CPU usage"] else [])
    ++ (if flagAt "High_RAM" i then ["High RAM usage"] else [])
    ++ (if flagAt "High_Disk" i then ["Disk almost full"] else [])
    ++ (if flagAt "Network_Offline" i then ["Network disconnected"] else [])
    ++ (if flagAt "Network_Unstable" i then ["Network unstable"] else [])
    ++ (if flagAt "Missing_Patch" i then ["Missing security patch"] else [])
    ++ (if flagAt "Critical_Vulnerability" i then ["Critical vulnerability"] else [])
    ++ (if flagAt "Important_Vulnerability" i then ["Important vulnerability"] else [])
    ++ (if flagAt "Moderate_Vulnerability" i then ["Moderate vulnerability"] else [])
    ++ (if flagAt "Has_CVE" i then ["CVE identified"] else [])
  let df := df.setCol "Problems"
    ((List.range n).map (fun i => Cell.str
      (if issuesAt i = [] then "No issues detected"
       else String.intercalate "; " (issuesAt i))))
  -- total problems, processing.py:253-264
  let hc ← intCastCol (df.getColD "High_CPU")
  let hr ← intCastCol (df.getColD "High_RAM")
  let hd ← intCastCol (df.getColD "High_Disk")
  let no ← intCastCol (df.getColD "Network_Offline")
  let nu ← intCastCol (df.getColD "Network_Unstable")
  let mp ← intCastCol (df.getColD "Missing_Patch")
  let cv ← intCastCol (df.getColD "Critical_Vulnerability")
  let iv ← intCastCol (df.getColD "Important_Vulnerability")
  let mv ← intCastCol (df.getColD "Moderate_Vulnerability")
  let hcve ← intCastCol (df.getColD "Has_CVE")
  let sum2 := fun (a b : List ℚ) => List.zipWith (· + ·) a b
  let totals := sum2 hc (sum2 hr (sum2 hd (sum2 no (sum2 nu (sum2 mp (sum2 cv (sum2 iv (sum2 mv hcve))))))))
  let df := df.setCol "Total_Problems" (totals.map Cell.num)
  -- attrs, processing.py:267-273
  let df := { df with attrs :=
    [("cpu_col", cpu_col), ("ram_col", ram_col), ("disk_col", disk_col),
     ("network_col", network_col), ("patch_col", patch_col),
     ("severity_col", severity_col), ("cve_col", cve_col)] }
  return df

/-!
## Cleaning, KPIs, top-critical view, process_data and the upload route
-/

/-- The cleaning-options record parsed from the uploaded JSON
(main1.py:39-43, consumed at processing.py:63-86 and processing.py:345).
A missing key reads as its falsy default.  `top_n` is kept as an integer;
the `int(...)` conversion failure mode for non-numeric JSON values is not
modelled (it is caught by the same handler as every other failure of
`get_top_critical_machines`). -/
structure CleaningOptions where
  drop_na : Bool := false
  fill_na : Option String := none
  remove_duplicates : Bool := false
  top_n : Option ℤ := none

def isNaCell : Cell → Bool
  | .na => true
  | _ => false

/-- Numeric dtype in the sense of `select_dtypes(include=[np.number])` for a
CSV-parsed column: every cell is a number or NaN (bool columns are not
np.number). -/
def isNumericDtype (cells : List Cell) : Bool :=
  cells.all (fun c => match c with | .num _ => true | .na => true | _ => false)

/-- Object dtype in the sense of `dtype == 'object'` for a CSV-parsed column:
at least one cell is a string. -/
def isObjectDtype (cells : List Cell) : Bool := cells.any isStrCell

def numsOf (cells : List Cell) : List ℚ :=
  cells.filterMap (fun c => match c with | .num q => some q | _ => none)

/-- pandas `Series.mean()` over the non-NaN values; NaN (none) on an empty
series. -/
def meanQ (l : List ℚ) : Option ℚ :=
  if l.isEmpty then none else some (l.foldl (· + ·) 0 / (l.length : ℚ))

/-- Fill NaN cells with the given value; `fillna(NaN)` (none) is a no-op. -/
def fillNaCells (cells : List Cell) : Option ℚ → List Cell
  | none => cells
  | some v => cells.map (fun c => match c with | .na => Cell.num v | c => c)

/-- Rebuild the table after transforming each column (name and cells given). -/
def mapColumns (t : Table) (f : String → List Cell → List Cell) : Table :=
  let datas := t.cols.map (fun c => f c (t.getColD c))
  { t with rows := (List.range t.nrows).map (fun i => datas.map (fun d => d.getD i Cell.na)) }

/-- Fixed ordering on cells used only to model the sorted output of pandas
`Series.mode()` (strings lexicographic, numbers by value, a fixed order
across kinds). -/
def cellLe : Cell → Cell → Bool
  | .num a, .num b => decide (a ≤ b)
  | .str a, .str b => decide (a ≤ b)
  | .num _, .str _ => true
  | .str _, .num _ => false
  | .bool a, .bool b => !a || b
  | .bool _, _ => true
  | _, .bool _ => false
  | .na, _ => true
  | _, .na => false

/-- pandas `Series.mode().iloc[0]`: the smallest of the most frequent non-NaN
values, or none when the series has no non-NaN value. -/
def modeCell (cells : List Cell) : Option Cell :=
  let vals := cells.filter (fun c => !isNaCell c)
  if vals.isEmpty then none
  else
    let counts := vals.map (fun c => vals.count c)
    let maxCount := counts.foldl max 0
    let best := vals.filter (fun c => vals.count c = maxCount)
    some (best.foldl (fun a b => if cellLe a b then a else b) (best.headD Cell.na))

/-- Keep the first occurrence of each duplicated row
(`drop_duplicates`, keep="first"). -/
def dedupAux : List (List Cell) → List (List Cell) → List (List Cell)
  | [], _ => []
  | r :: rest, seen =>
      if seen.contains r then dedupAux rest seen else r :: dedupAux rest (r :: seen)

def dedupRows (rows : List (List Cell)) : List (List Cell) := dedupAux rows []

/-- processing.py:63-86 `apply_cleaning`: optionally drop rows with any NaN,
fill NaN (mean or median on numeric columns, column mode on object columns),
and drop duplicate rows, in that order. -/
def apply_cleaning (t : Table) (opts : CleaningOptions) : Table :=
  let df := t
  let df :=
    if opts.drop_na then
      { df with rows := df.rows.filter (fun r => !r.any isNaCell) }
    else df
  let df :=
    if opts.fill_na = some "mean" then
      mapColumns df (fun _ cells =>
        if isNumericDtype cells then fillNaCells cells (meanQ (numsOf cells)) else cells)
    else if opts.fill_na = some "median" then
      mapColumns df (fun _ cells =>
        if isNumericDtype cells then fillNaCells cells (medianQ (numsOf cells)) else cells)
    else if opts.fill_na = some "mode" then
      mapColumns df (fun _ cells =>
        if isObjectDtype cells then
          match modeCell cells with
          | some m => cells.map (fun c => if isNaCell c then m else c)
          | none => cells
        else cells)
    else df
  let df :=
    if opts.remove_duplicates then { df with rows := dedupRows df.rows } else df
  df

/-- attrs lookup with default, `df.attrs.get(key, default)`
(processing.py:305-307, 348-354). -/
def Table.attrGet (t : Table) (k dflt : String) : String :=
  match t.attrs.find? (fun p => p.1 == k) with
  | some p => p.2
  | none => dflt

/-- Round-half-to-even to an integer (the rounding Python `round` uses). -/
def roundHalfEven (q : ℚ) : ℤ :=
  let f := ⌊q⌋
  let r := q - (f : ℚ)
  if r < 1/2 then f
  else if 1/2 < r then f + 1
  else if f % 2 = 0 then f else f + 1

/-- Python `round(x, 1)`. -/
def round1 (q : ℚ) : ℚ := (roundHalfEven (q * 10) : ℚ) / 10

/-- Python `int(x)`: truncation toward zero. -/
def truncInt (q : ℚ) : ℤ := if 0 ≤ q then ⌊q⌋ else -⌊-q⌋

/-- One cell of an `== "label"` comparison on the Severity_Level column
(processing.py:299-302): NaN and non-string cells compare unequal. -/
def eqStrCell (s : String) : Cell → Bool
  | .str x => x == s
  | _ => false

/-- Mean of a boolean series as a rational in [0,1]; NaN (none) when empty. -/
def boolMean (l : List Bool) : Option ℚ :=
  if l.isEmpty then none else some ((l.count true : ℚ) / (l.length : ℚ))

/-- pandas numeric aggregation guard: `mean`/`max`/`sum` on a column holding
strings raises TypeError; NaN cells are skipped; booleans count as 0/1. -/
def aggNums (cells : List Cell) : Except String (List ℚ) :=
  if cells.any isStrCell then
    .error "TypeError: could not aggregate object column"
  else
    .ok (cells.filterMap (fun c => match c with
      | .num q => some q
      | .bool b => some ((b.toNat : ℕ) : ℚ)
      | _ => none))

def maxQ (l : List ℚ) : Option ℚ :=
  match l with
  | [] => none
  | x :: xs => some (xs.foldl max x)

/-- A value of the dynamically-typed `kpis` dictionary of calculate_kpis:
the machine count, a truncated-int cast, a rounded float (none is NaN), or
the error-description string. -/
inductive KpiVal where
  | nat (n : ℕ)
  | int (z : ℤ)
  | rat (q : Option ℚ)
  | text (s : String)
deriving DecidableEq

/-- Python dict assignment `kpis[k] = v` on an association list: overwrite
the existing entry in place, otherwise append on the right (insertion
order preserved, as for a Python dict). -/
def kpiSet : List (String × KpiVal) → String → KpiVal → List (String × KpiVal)
  | [], k, v => [(k, v)]
  | p :: rest, k, v => if p.1 == k then (k, v) :: rest else p :: kpiSet rest k v

/-- Python dict lookup `kpis.get(k)`. -/
def lookupKpi (d : List (String × KpiVal)) (k : String) : Option KpiVal :=
  (d.find? (fun p => p.1 == k)).map Prod.snd

/-- One severity-percentage write, processing.py:299-302:
`round((df["Severity_Level"] == label).mean() * 100, 1)`; the column access
can raise KeyError. -/
def pctStep (t : Table) (label : String) : Except String KpiVal :=
  (t.getCol "Severity_Level").map (fun sev =>
    KpiVal.rat ((boolMean (sev.map (eqStrCell label))).map (fun q => round1 (q * 100))))

/-- One `round(df[c].mean(), 1)` write (processing.py:309-311, 318, 331). -/
def meanStep (t : Table) (c : String) : Except String KpiVal :=
  (t.getCol c).bind (fun cells =>
    (aggNums cells).map (fun l => KpiVal.rat ((meanQ l).map round1)))

/-- One `round(df[c].max(), 1)` write (processing.py:312-314, 332). -/
def maxStep (t : Table) (c : String) : Except String KpiVal :=
  (t.getCol c).bind (fun cells =>
    (aggNums cells).map (fun l => KpiVal.rat ((maxQ l).map round1)))

/-- One `int(df[c].sum())` write (processing.py:317, 321-328). -/
def sumStep (t : Table) (c : String) : Except String KpiVal :=
  (t.getCol c).bind (fun cells =>
    (aggNums cells).map (fun l => KpiVal.int (truncInt (l.foldl (· + ·) 0))))

/-- processing.py:296-332, the body of the `try` block of `calculate_kpis` as
the ordered list of dictionary writes: each entry is a key together with its
(fallible) aggregate computation, in source order.  A pandas failure (missing
column on `df[...]`, object-typed aggregation) surfaces as the exception
text of that entry.  The hardware columns come from attrs with the fixed
defaults (processing.py:305-307). -/
def kpiTrySteps (t : Table) : List (String × Except String KpiVal) :=
  let cpu_col := t.attrGet "cpu_col" "CPU Usage (%)"
  let ram_col := t.attrGet "ram_col" "RAM Usage (%)"
  let disk_col := t.attrGet "disk_col" "Disk Usage (%)"
  [("total_machines", .ok (.nat t.nrows)),
   ("critical_pct", pctStep t "Critical"),
   ("high_pct", pctStep t "High"),
   ("medium_pct", pctStep t "Medium"),
   ("low_pct", pctStep t "Low"),
   ("avg_cpu", meanStep t cpu_col),
   ("avg_ram", meanStep t ram_col),
   ("avg_disk", meanStep t disk_col),
   ("max_cpu", maxStep t cpu_col),
   ("max_ram", maxStep t ram_col),
   ("max_disk", maxStep t disk_col),
   ("machines_with_problems", sumStep t "Total_Problems"),
   ("avg_problems_per_machine", meanStep t "Total_Problems"),
   ("machines_missing_patches", sumStep t "Missing_Patch"),
   ("critical_vulnerabilities", sumStep t "Critical_Vulnerability"),
   ("important_vulnerabilities", sumStep t "Important_Vulnerability"),
   ("machines_with_cve", sumStep t "Has_CVE"),
   ("offline_machines", sumStep t "Network_Offline"),
   ("unstable_connections", sumStep t "Network_Unstable"),
   ("avg_critical_score", meanStep t "Critical_Score"),
   ("max_critical_score", maxStep t "Critical_Score")]

/-- Run the dictionary writes of the `try` block in order on the accumulated
dictionary; the first failing aggregate aborts the rest, returning the
dictionary as built so far together with the exception text (the entries
already inserted are NOT discarded -- the source mutates one dict in place). -/
def runKpiSteps (d : List (String × KpiVal)) :
    List (String × Except String KpiVal) → List (String × KpiVal) × Option String
  | [] => (d, none)
  | (k, comp) :: rest =>
      match comp with
      | .ok v => runKpiSteps (kpiSet d k v) rest
      | .error e => (d, some e)

/-- processing.py:291-339 `calculate_kpis`: the try/except around the dict
writes.  On failure, the except branch (processing.py:334-337) re-assigns
`total_machines` and appends the error description to the SAME dictionary,
keeping every KPI entry inserted before the failure; nothing propagates. -/
def calculate_kpis (t : Table) : List (String × KpiVal) :=
  match runKpiSteps [] (kpiTrySteps t) with
  | (d, none) => d
  | (d, some e) =>
      kpiSet (kpiSet d "total_machines" (.nat t.nrows)) "error"
        (.text ("KPI calculation error: " ++ e))

/-- Stable descending insertion of an (index, key) pair: the pair travels
past strictly smaller keys only, so equal keys keep insertion order. -/
def insDesc (p : ℕ × ℚ) : List (ℕ × ℚ) → List (ℕ × ℚ)
  | [] => [p]
  | q :: qs => if decide (q.2 < p.2) then p :: q :: qs else q :: insDesc p qs

/-- Index order produced by `df.sort_values(col, ascending=False)` on a
numeric key column, modelled from pandas nargsort: NaN keys go last
(na_position="last"), the rest are ordered by key descending.  Ties keep the
original row order here; that matches the double reversal pandas performs
around the underlying ascending argsort whenever that argsort is stable
(numpy insertion-sorts short arrays), but the call site uses the default
kind="quicksort", which pandas documents as not stable, so the tie order of
the real library is unspecified for larger inputs (see the unresolved
claim C8). -/
def pandasSortDescIdx (keys : List (Option ℚ)) : List ℕ :=
  let en := keys.enum
  let nonNa := en.filterMap (fun p => p.2.map (fun q => (p.1, q)))
  let naIdx := en.filterMap (fun p => match p.2 with | none => some p.1 | some _ => none)
  (nonNa.foldl (fun acc p => insDesc p acc) []).map (fun p => p.1) ++ naIdx

/-- pandas `head(n)`: first n rows for nonnegative n, all but the last |n|
rows for negative n. -/
def pandasHead (n : ℤ) (rows : List (List Cell)) : List (List Cell) :=
  if 0 ≤ n then rows.take n.toNat else rows.take (rows.length - (-n).toNat)

/-- Column projection `df[cols]` (assumes the listed columns exist, as the
call site guarantees by filtering on `df.columns`). -/
def projectTable (t : Table) (cs : List String) : Table :=
  let datas := cs.map t.getColD
  { cols := cs,
    rows := (List.range t.nrows).map (fun i => datas.map (fun d => d.getD i Cell.na)),
    attrs := t.attrs }

/-- Sort keys of the Critical_Score column: numbers, with NaN as none;
strings make the comparison-based sort raise. -/
def sortKeys (cells : List Cell) : Except String (List (Option ℚ)) :=
  if cells.any isStrCell then
    .error "TypeError: could not compare object column"
  else
    .ok (cells.map (fun c => match c with
      | .num q => some q
      | .bool b => some ((b.toNat : ℕ) : ℚ)
      | _ => none))

/-- Body of the `try` block of `get_top_critical_machines`
(processing.py:344-371): read top_n (default 5), build the display-column
list from attrs, keep those actually present, project, sort by Critical_Score
descending, truncate to top_n. -/
def topCore (t : Table) (opts : CleaningOptions) : Except String (List String × List (List Cell)) := do
  let top_n := opts.top_n.getD 5
  let cpu_col := t.attrGet "cpu_col" "CPU Usage (%)"
  let ram_col := t.attrGet "ram_col" "RAM Usage (%)"
  let disk_col := t.attrGet "disk_col" "Disk Usage (%)"
  let network_col := t.attrGet "network_col" "Network Status"
  let patch_col := t.attrGet "patch_col" "MissingPatchsKB"
  let severity_col := t.attrGet "severity_col" "Severity"
  let cve_col := t.attrGet "cve_col" "CVE identifier(s)"
  let display_cols := ["Computer ID", "Critical_Score", "Severity_Level", "Total_Problems",
    "Problems", cpu_col, ram_col, disk_col, network_col, patch_col, severity_col, cve_col]
  let available := display_cols.filter (fun c => t.cols.contains c)
  let proj := projectTable t available
  let scores ← proj.getCol "Critical_Score"
  let keys ← sortKeys scores
  let order := pandasSortDescIdx keys
  let sortedRows := order.map (fun i => proj.rows.getD i [])
  return (available, pandasHead top_n sortedRows)

/-- Result of the top-critical view: the projected, sorted, truncated records,
or the single error record the except branch builds (processing.py:375-376). -/
inductive TopCritical where
  | view (cols : List String) (records : List (List Cell))
  | failed (msg : String)
deriving DecidableEq

/-- processing.py:342-376 `get_top_critical_machines` with its try/except
wrapper. -/
def get_top_critical_machines (t : Table) (opts : CleaningOptions) : TopCritical :=
  match topCore t opts with
  | .ok (cs, rs) => .view cs rs
  | .error e => .failed ("Failed to get critical machines: " ++ e)

/-- The result record of `process_data` (processing.py:50-57).  The rendered
charts are presentation artifacts outside the embedded core and are omitted. -/
structure ProcessOutput where
  kpis : List (String × KpiVal)
  data_preview : List (List Cell)
  top_critical : TopCritical
  total_rows : ℕ
  columns_available : List String

/-- processing.py:17-57 `process_data`: reject an empty DataFrame up front
(`df.empty` is true when either axis has length zero; the isinstance check is
subsumed by typing here), then clean, detect and score, compute KPIs and the
top-critical view, and assemble the result. -/
def process_data (rand : SynthData) (t : Table) (opts : CleaningOptions) : Except String ProcessOutput :=
  if t.rows.isEmpty || t.cols.isEmpty then .error "Dataset is empty"
  else do
    let df := apply_cleaning t opts
    let df ← detect_problems_and_score rand df
    let kpis := calculate_kpis df
    let top := get_top_critical_machines df opts
    return { kpis := kpis, data_preview := df.rows.take 20, top_critical := top,
             total_rows := df.nrows, columns_available := df.cols }

/-- Outcome of the upload route: the processed payload or an HTTP error
response. -/
inductive UploadResult where
  | ok (r : ProcessOutput)
  | httpError (status : ℕ) (detail : String)

/-- main1.py:22-51 `upload_file`: CSV parse failures and cleaning-options
parse failures are 400s with their own prefixes; any exception escaping
`process_data` is returned as HTTP 400 with the exception text as detail.
The upstream parses enter as Except values (the CSV reader and JSON parser
are external collaborators). -/
def upload_file (rand : SynthData) (csv : Except String Table)
    (optsJson : Except String CleaningOptions) : UploadResult :=
  match csv with
  | .error e => .httpError 400 ("Failed to read CSV: " ++ e)
  | .ok df =>
    match optsJson with
    | .error e => .httpError 400 ("Invalid cleaning_options: " ++ e)
    | .ok opts =>
      match process_data rand df opts with
      | .error e => .httpError 400 e
      | .ok r => .ok r

/-!
## Semantic retriever (chatboot/retrieval.py)

The sentence-transformer encoder and the FAISS inner-product index are
external collaborators; the embedding models them as a similarity oracle
`sim q i` giving the inner product of the encoded query with indexed issue i.
Construction (retrieval.py:26-65) lowercases and cleans the issue texts,
drops rows whose cleaned issue is empty and raises when nothing remains, so
an instance carries a nonempty aligned issue/response store.
-/

structure RetrievalSystem where
  issues : List String
  responses : List String
  sim : String → ℕ → ℚ
  issues_nonempty : issues ≠ []
  responses_length : responses.length = issues.length

/-- First index attaining the running maximum (ties keep the earlier index,
matching the index order FAISS reports for equal scores). -/
def argmaxAux : List ℚ → ℕ → ℕ → ℚ → ℕ
  | [], _, bi, _ => bi
  | x :: xs, i, bi, bv =>
      if decide (bv < x) then argmaxAux xs (i + 1) i x else argmaxAux xs (i + 1) bi bv

def argmaxIdx : List ℚ → ℕ
  | [] => 0
  | x :: xs => argmaxAux xs 1 0 x

/-- The index of the best-scoring indexed issue for a query
(`self.index.search(q, ...)` top hit, retrieval.py:80-85). -/
def RetrievalSystem.bestIdx (sys : RetrievalSystem) (q : String) : ℕ :=
  argmaxIdx ((List.range sys.issues.length).map (sys.sim q))

/-- retrieval.py:71-94 `RetrievalSystem.search`: a None or blank query
short-circuits to (None, 0.0, None); otherwise the single best hit is taken,
its score clipped to [0,1], the defensive index-range guard applied, and the
match returned only when the clipped score reaches the threshold -- otherwise
the score is still reported with no content.  `top_k` only widens the FAISS
request (`max(1, top_k)`); the caller uses the best hit alone. -/
def RetrievalSystem.search (sys : RetrievalSystem) (query : Option String)
    (top_k : ℕ) (threshold : ℚ) : Option String × ℚ × Option String :=
  let _ := top_k
  match query with
  | none => (none, 0, none)
  | some q =>
    if (pyStrip q).isEmpty then (none, 0, none)
    else
      let best_idx := sys.bestIdx q
      let best_score := clip01 (sys.sim q best_idx)
      if sys.issues.length ≤ best_idx then (none, 0, none)
      else if threshold ≤ best_score then
        (some (sys.responses.getD best_idx ""), best_score, some (sys.issues.getD best_idx ""))
      else (none, best_score, none)

/-!
## Conversation router (chatboot/main.py)

The session-resolution preamble (main.py:49-74) always hands the handler an
existing session record; the embedding models the handler body from there.
Timestamps are not load-bearing for any claim and are omitted from turns.
The external generator `ask_gpt` and the retrieval call are oracles whose
error case models a raised exception.
-/

structure Turn where
  role : String
  content : String
  source : Option String := none
deriving DecidableEq

structure ChatSession where
  problem : Option String := none
  solution : Option String := none
  current_step : Option ℕ := none
  history : List Turn := []
deriving DecidableEq

/-- Python truthiness of an optional string field: None and the empty string
are falsy (`if session["solution"]`, `if response and ...`). -/
def truthyOptStr : Option String → Bool
  | none => false
  | some s => !s.isEmpty

/-- chatboot/main.py:248-256 -- the fixed follow-up keyword list. -/
def followup_keywords : List String :=
  ["don\x27t understand", "don\x27t get", "confused", "unclear",
   "step", "how to", "what does", "explain", "clarify",
   "not working", "doesn\x27t work", "still have", "still experiencing",
   "help", "assist", "guide", "walk me through",
   "this didn\x27t work", "this solution didn\x27t work", "it\x27s not working",
   "tried this", "already tried", "still not working", "doesn\x27t help",
   "not helping", "still have the problem", "problem persists"]

/-- chatboot/main.py:242-269 `is_followup_question`: always false unless the
session has a truthy solution; otherwise true when the lowercased question
contains a follow-up keyword, or is at most five words long and contains a
negation or reference word. -/
def is_followup_question (question : String) (session : ChatSession) : Bool :=
  if !truthyOptStr session.solution then false
  else
    let question_lower := lowerStr question
    let has_followup_keywords := followup_keywords.any (fun k => strContains question_lower k)
    let is_short_negative :=
      decide ((pySplitWs question).length ≤ 5) &&
      (["not", "didn\x27t", "doesn\x27t", "still", "this", "that"].any
        (fun w => strContains question_lower w))
    has_followup_keywords || is_short_negative

/-- Oracles for the router: the external generator (gpt_client.ask_gpt) and
the retrieval call `retrieval_system.search(question, top_k=3, threshold=0.5)`
as performed at main.py:115; an error value models a raised exception. -/
structure ChatEnv where
  ask_gpt : String → Except String String
  retrieve : String → Except String (Option String × ℚ × Option String)

/-- Python f-string rendering of an optional field (None prints as None). -/
def optStrRepr : Option String → String
  | none => "None"
  | some s => s

/-- chatboot/main.py:271-303 `build_conversation_context`: the fixed prompt
skeleton around the previous problem, the previous solution, and the last
four history turns. -/
def build_conversation_context (session : ChatSession) : String :=
  let intro :=
    "You are an IT support specialist helping with a technical issue.\n\n"
    ++ "Previous Problem: " ++ optStrRepr session.problem ++ "\n\n"
    ++ "Previous Solution Provided: " ++ optStrRepr session.solution ++ "\n\n"
    ++ "Current Conversation History:\n"
  let recent := session.history.drop (session.history.length - 4)
  let middle := recent.foldl
    (fun acc ex =>
      acc ++ (if ex.role == "user" then "User" else "Support") ++ ": " ++ ex.content ++ "\n")
    intro
  middle
  ++ "\n\nIMPORTANT CONTEXT: The user is currently experiencing issues with: "
  ++ optStrRepr session.problem
  ++ "\nYou provided this solution: " ++ optStrRepr session.solution
  ++ "\n\nThe user is now saying the solution didn\x27t work or they need clarification.\n\n"
  ++ "Please provide a helpful, contextual response that:\n"
  ++ "1. Acknowledges their current problem\n"
  ++ "2. Offers alternative solutions or troubleshooting steps\n"
  ++ "3. Asks clarifying questions if needed\n"
  ++ "4. Is supportive and understanding\n\n"
  ++ "Be conversational and supportive. If they\x27re saying something is not working, "
  ++ "help troubleshoot further with specific steps."

/-- chatboot/main.py:305-317 `ask_gpt_with_context`: ask the generator with
the combined prompt; on failure retry with the bare question; only a second
failure escapes. -/
def ask_gpt_with_context (env : ChatEnv) (question context : String) : Except String String :=
  match env.ask_gpt (context ++ "\n\nUser\x27s current question: " ++ question) with
  | .ok a => .ok a
  | .error _ => env.ask_gpt question

/-- chatboot/main.py:130-139 -- the fixed KB-rewriting instruction template. -/
def kbPrompt (question response : String) : String :=
  "You are an IT support assistant.\n"
  ++ "Below is a knowledge-base solution relevant to the user\x27s problem.\n"
  ++ "Rewrite it as a concise, friendly, step-by-step response.\n"
  ++ "- Keep only factual steps from the KB, do not invent.\n"
  ++ "- Clarify where needed.\n"
  ++ "- Prefer bullet points or short numbered steps.\n\n"
  ++ "User question: " ++ question ++ "\n\n"
  ++ "Knowledge-base solution:\n" ++ response ++ "\n"

/-- The chat response body `{source, similarity, answer, is_followup}`
(the echoed session id is part of the transport layer). -/
structure ChatResult where
  source : String
  similarity : Option ℚ
  answer : String
  is_followup : Bool
deriving DecidableEq

/-- chatboot/main.py:74-213, the `/chat` handler body after session
resolution: append the user turn; classify follow-up; Branch A answers a
follow-up from context (falling through on generator failure); the KB branch
fires only on a truthy response with score at least 0.5 that is NOT a
follow-up, updating the session topic; otherwise the GPT fallback answers
with or without context, and only its failure produces the user-visible
error turn.  Every branch appends exactly one bot turn. -/
def chat (env : ChatEnv) (question : String) (session : ChatSession) :
    ChatResult × ChatSession :=
  -- main.py:78-82, append the user question to the history
  let session := { session with
    history := session.history ++ [{ role := "user", content := question }] }
  -- main.py:85
  let is_followup := is_followup_question question session
  -- Branch A, main.py:87-111
  let branchA : Option (ChatResult × ChatSession) :=
    if is_followup && truthyOptStr session.solution then
      match ask_gpt_with_context env question (build_conversation_context session) with
      | .ok gpt_answer =>
          some ({ source := "gpt_context", similarity := none, answer := gpt_answer,
                  is_followup := true },
                { session with history := session.history
                    ++ [{ role := "bot", content := gpt_answer, source := some "gpt_context" }] })
      | .error _ => none
    else none
  match branchA with
  | some r => r
  | none =>
    -- retrieval with its own try/except, main.py:114-119
    let rres :=
      match env.retrieve question with
      | .ok r => r
      | .error _ => (none, 0, none)
    let response := rres.1
    let score := rres.2.1
    -- KB branch, main.py:122-161; main.py:162-165 lets a high-confidence
    -- follow-up fall through to the GPT fallback instead
    if truthyOptStr response && decide ((1 : ℚ)/2 ≤ score) && !is_followup then
      let session := { session with
        problem := some question, solution := response, current_step := some 1 }
      let raw := response.getD ""
      let polished :=
        match env.ask_gpt (kbPrompt question raw) with
        | .ok p => p
        | .error _ => raw
      let final_answer := polished ++ "\n\nSource: Knowledge Base (RAG)"
      ({ source := "gpt_kb", similarity := some score, answer := final_answer,
         is_followup := false },
       { session with history := session.history
           ++ [{ role := "bot", content := final_answer, source := some "gpt_kb" }] })
    else
      -- GPT fallback, main.py:168-213
      let hasCtx := truthyOptStr session.problem && truthyOptStr session.solution
      let attempt : Except String String :=
        if hasCtx then ask_gpt_with_context env question (build_conversation_context session)
        else env.ask_gpt question
      match attempt with
      | .ok gpt_answer =>
        let footer := if hasCtx then "Source: GPT with context" else "Source: GPT fallback"
        let final := gpt_answer ++ "\n\n" ++ footer
        ({ source := "gpt", similarity := none, answer := final, is_followup := false },
         { session with history := session.history
             ++ [{ role := "bot", content := final, source := some "gpt" }] })
      | .error _ =>
        -- the source prefixes this message with a mojibake glyph; its text
        -- content is modelled
        let error_msg := "Failed to get an answer. Please try again."
        ({ source := "error", similarity := none, answer := error_msg, is_followup := false },
         { session with history := session.history
             ++ [{ role := "bot", content := error_msg, source := some "error" }] })

/-!
## Concrete fixtures used by closed theorems and witnesses
-/

/-- A fixed outcome for the random draws (any value is admissible; the spec
declares the distribution not load-bearing). -/
def synthConst : SynthData :=
  ⟨fun _ => 50, fun _ => 50, fun _ => 50,
   fun _ => "Online", fun _ => "Release Notes", fun _ => "Low"⟩

/-- A one-row table whose single column matches no telemetry keyword, so all
seven canonical fields are unresolved; in particular no column matches the
CVE keywords. -/
def tNoCve : Table := { cols := ["ID"], rows := [[Cell.str "m1"]] }

/-- A one-row table with a Severity_Level column but no CPU column (and no
attrs), so the four severity-percentage KPI entries are computed before the
avg_cpu aggregate raises KeyError on the default CPU column name. -/
def kpiPartialTbl : Table :=
  { cols := ["Severity_Level"], rows := [[Cell.str "Medium"]] }

/-- A table with a column but no rows (an empty DataFrame). -/
def emptyTbl : Table := { cols := ["A"], rows := [] }

/-- A retrieval system over a single KB entry whose similarity oracle always
reports a perfect score. -/
def sysOne : RetrievalSystem :=
  { issues := ["printer not working"]
    responses := ["restart the printer"]
    sim := fun _ _ => 1
    issues_nonempty := by simp
    responses_length := rfl }

/-- A chat environment whose generator succeeds and whose retriever reports a
high-confidence hit. -/
def envKB : ChatEnv :=
  { ask_gpt := fun _ => .ok "contextual answer"
    retrieve := fun _ => .ok (some "kb solution", 1, some "matched issue") }

/-- A session already engaged on a topic (problem and solution set). -/
def sessionSolved : ChatSession :=
  { problem := some "printer broken", solution := some "restart the printer" }

/-!
## Helper lemmas
-/

theorem net_excl (r : MachineRecord) :
    Network_Offline r = true → Network_Unstable r = false := by
  unfold Network_Offline Network_Unstable
  cases hn : r.network with
  | none => intro h; exact absurd h (by simp)
  | some s =>
    intro h
    have h1 := of_decide_eq_true h
    apply decide_eq_false
    rintro (h2 | h2) <;> rcases h1 with h1 | h1 <;> (rw [h1] at h2; exact absurd h2 (by decide))

theorem mem_ite_singleton {p : Prop} [Decidable p] {x l : String}
    (h : x ∈ (if p then [l] else [])) : x = l := by
  split at h
  · simpa using h
  · simp at h

theorem count_true_eq_sum_toNat (l : List Bool) :
    l.count true = (l.map Bool.toNat).sum := by
  induction l with
  | nil => rfl
  | cons b t ih =>
    cases b
    · simp [List.count_cons, ih]
    · simp [List.count_cons, ih]
      omega

theorem truthyOptStr_none : truthyOptStr none = false := rfl

theorem clip01_nonneg (x : ℚ) : 0 ≤ clip01 x := le_max_left 0 (min 1 x)

theorem clip01_le_one (x : ℚ) : clip01 x ≤ 1 :=
  max_le (by norm_num) (min_le_left 1 x)

/-!
## Claim theorems
-/

/-- Claim C9: for every record, the NetworkOffline and NetworkUnstable flags
are never both true -- the two predicates test the same lowercased
network-status value against the disjoint sets (offline, disconnected) and
(unstable, poor) -- so at most one network score contribution (+3.0 or +2.0)
applies per machine. -/
theorem network_flags_mutually_exclusive (r : MachineRecord) :
    (Network_Offline r && Network_Unstable r) = false
    ∧ (if Network_Offline r then (3 : ℚ) else 0) + (if Network_Unstable r then 2 else 0) ≤ 3 := by
  constructor
  · cases ho : Network_Offline r with
    | false => simp
    | true => simp [net_excl r ho]
  · cases ho : Network_Offline r with
    | true => rw [net_excl r ho]; norm_num
    | false => cases hu : Network_Unstable r <;> norm_num

/-- Claim C3: for every record, critical_score equals the exact sum of the
fixed table weights of its true flags (HighCPU +2, HighRAM +1.5, HighDisk +2,
NetworkOffline +3, NetworkUnstable +2, MissingPatch +2, CriticalVuln +3,
ImportantVuln +2, ModerateVuln +1, LowVuln +0.5, HasCVE +1), and the score is
never negative and never exceeds 19 (the two network flags being mutually
exclusive, it never even exceeds 18). -/
theorem critical_score_weighted_sum_bounds (r : MachineRecord) :
    critical_score r =
      (if High_CPU r then 2 else 0) + (if High_RAM r then 3/2 else 0)
      + (if High_Disk r then 2 else 0) + (if Network_Offline r then 3 else 0)
      + (if Network_Unstable r then 2 else 0) + (if Missing_Patch r then 2 else 0)
      + (if Critical_Vulnerability r then 3 else 0) + (if Important_Vulnerability r then 2 else 0)
      + (if Moderate_Vulnerability r then 1 else 0) + (if Low_Vulnerability r then 1/2 else 0)
      + (if Has_CVE r then 1 else 0)
    ∧ 0 ≤ critical_score r ∧ critical_score r ≤ 19 := by
  have hsum : critical_score r =
      (if High_CPU r then (2:ℚ) else 0) + (if High_RAM r then 3/2 else 0)
      + (if High_Disk r then 2 else 0) + (if Network_Offline r then 3 else 0)
      + (if Network_Unstable r then 2 else 0) + (if Missing_Patch r then 2 else 0)
      + (if Critical_Vulnerability r then 3 else 0) + (if Important_Vulnerability r then 2 else 0)
      + (if Moderate_Vulnerability r then 1 else 0) + (if Low_Vulnerability r then 1/2 else 0)
      + (if Has_CVE r then 1 else 0) := by
    rw [critical_score]; ring
  have h1 : (0:ℚ) ≤ (if High_CPU r then (2:ℚ) else 0) ∧ (if High_CPU r then (2:ℚ) else 0) ≤ 2 := by
    split <;> norm_num
  have h2 : (0:ℚ) ≤ (if High_RAM r then (3/2:ℚ) else 0) ∧ (if High_RAM r then (3/2:ℚ) else 0) ≤ 3/2 := by
    split <;> norm_num
  have h3 : (0:ℚ) ≤ (if High_Disk r then (2:ℚ) else 0) ∧ (if High_Disk r then (2:ℚ) else 0) ≤ 2 := by
    split <;> norm_num
  have hnet : (0:ℚ) ≤ (if Network_Offline r then (3:ℚ) else 0) + (if Network_Unstable r then 2 else 0)
      ∧ (if Network_Offline r then (3:ℚ) else 0) + (if Network_Unstable r then 2 else 0) ≤ 3 := by
    cases ho : Network_Offline r with
    | true => rw [net_excl r ho]; norm_num
    | false => cases hu : Network_Unstable r <;> norm_num
  have h6 : (0:ℚ) ≤ (if Missing_Patch r then (2:ℚ) else 0) ∧ (if Missing_Patch r then (2:ℚ) else 0) ≤ 2 := by
    split <;> norm_num
  have h7 : (0:ℚ) ≤ (if Critical_Vulnerability r then (3:ℚ) else 0) ∧ (if Critical_Vulnerability r then (3:ℚ) else 0) ≤ 3 := by
    split <;> norm_num
  have h8 : (0:ℚ) ≤ (if Important_Vulnerability r then (2:ℚ) else 0) ∧ (if Important_Vulnerability r then (2:ℚ) else 0) ≤ 2 := by
    split <;> norm_num
  have h9 : (0:ℚ) ≤ (if Moderate_Vulnerability r then (1:ℚ) else 0) ∧ (if Moderate_Vulnerability r then (1:ℚ) else 0) ≤ 1 := by
    split <;> norm_num
  have h10 : (0:ℚ) ≤ (if Low_Vulnerability r then (1/2:ℚ) else 0) ∧ (if Low_Vulnerability r then (1/2:ℚ) else 0) ≤ 1/2 := by
    split <;> norm_num
  have h11 : (0:ℚ) ≤ (if Has_CVE r then (1:ℚ) else 0) ∧ (if Has_CVE r then (1:ℚ) else 0) ≤ 1 := by
    split <;> norm_num
  refine ⟨hsum, ?_, ?_⟩
  · rw [hsum]
    have := hnet.1
    linarith [h1.1, h2.1, h3.1, h6.1, h7.1, h8.1, h9.1, h10.1, h11.1]
  · rw [hsum]
    have := hnet.2
    linarith [h1.2, h2.2, h3.2, h6.2, h7.2, h8.2, h9.2, h10.2, h11.2]

/-- Claim C5: total_problems counts exactly the ten flags HighCPU, HighRAM,
HighDisk, NetworkOffline, NetworkUnstable, MissingPatch, CriticalVuln,
ImportantVuln, ModerateVuln, HasCVE -- never LowVuln; the problem summary
never contains a "Low vulnerability" label even when the LowVuln flag is
true; and LowVuln still contributes +0.5 to the critical score. -/
theorem total_problems_and_summary_exclude_low_vuln (r : MachineRecord) :
    Total_Problems r =
      ([High_CPU r, High_RAM r, High_Disk r, Network_Offline r, Network_Unstable r,
        Missing_Patch r, Critical_Vulnerability r, Important_Vulnerability r,
        Moderate_Vulnerability r, Has_CVE r].count true)
    ∧ "Low vulnerability" ∉ problem_issues r
    ∧ critical_score r =
        ((if High_CPU r then 2 else 0) + (if High_RAM r then 3/2 else 0)
         + (if High_Disk r then 2 else 0) + (if Network_Offline r then 3 else 0)
         + (if Network_Unstable r then 2 else 0) + (if Missing_Patch r then 2 else 0)
         + (if Critical_Vulnerability r then 3 else 0) + (if Important_Vulnerability r then 2 else 0)
         + (if Moderate_Vulnerability r then 1 else 0) + (if Has_CVE r then 1 else 0))
        + (if Low_Vulnerability r then 1/2 else 0) := by
  refine ⟨?_, ?_, by rw [critical_score]; ring⟩
  · rw [count_true_eq_sum_toNat, Total_Problems]
    simp
    omega
  · intro hx
    simp only [problem_issues, List.mem_append] at hx
    rcases hx with ((((((((h | h) | h) | h) | h) | h) | h) | h) | h) | h <;>
      exact absurd (mem_ite_singleton h) (by decide)

/-- Claim C4, counterexample: a critical score greater than 100 is NOT
classified Critical -- pd.cut leaves values outside the outermost bin edge
unlabelled (NaN). -/
theorem severity_binning_out_of_range_counterexample :
    severity_level 101 = none ∧ severity_level 101 ≠ some "Critical" := by
  have h : severity_level 101 = none := by norm_num [severity_level]
  exact ⟨h, by rw [h]; simp⟩

/-- Claim C4 as amended: on the pd.cut domain (-1, 100] the severity binning
maps score s with s ≤ 3 to Low, 3 < s ≤ 5 to Medium, 5 < s ≤ 7 to High and
7 < s ≤ 100 to Critical; above 100 the value receives no label (see the
counterexample), which the pipeline never reaches since scores stay below 19. -/
theorem severity_binning_in_range (s : ℚ) (hlo : -1 < s) (hhi : s ≤ 100) :
    severity_level s =
      some (if s ≤ 3 then "Low" else if s ≤ 5 then "Medium"
            else if s ≤ 7 then "High" else "Critical") := by
  unfold severity_level
  split_ifs <;> first | rfl | (exfalso; linarith)

/-- Witness for the amended C4 theorem at the boundary scores of the claim. -/
theorem severity_binning_in_range_witness :
    severity_level 3 = some "Low" ∧ severity_level (30001/10000) = some "Medium"
    ∧ severity_level 5 = some "Medium" ∧ severity_level (50001/10000) = some "High"
    ∧ severity_level 7 = some "High" ∧ severity_level (70001/10000) = some "Critical" := by
  refine ⟨?_, ?_, ?_, ?_, ?_, ?_⟩
  · have h := severity_binning_in_range 3 (by norm_num) (by norm_num)
    rw [h]; norm_num
  · have h := severity_binning_in_range (30001/10000) (by norm_num) (by norm_num)
    rw [h]; norm_num
  · have h := severity_binning_in_range 5 (by norm_num) (by norm_num)
    rw [h]; norm_num
  · have h := severity_binning_in_range (50001/10000) (by norm_num) (by norm_num)
    rw [h]; norm_num
  · have h := severity_binning_in_range 7 (by norm_num) (by norm_num)
    rw [h]; norm_num
  · have h := severity_binning_in_range (70001/10000) (by norm_num) (by norm_num)
    rw [h]; norm_num

/-- Claim C1 (code bug): the synthesis block of detect_problems_and_score has
no branch for the CVE column, so on a table that resolves none of the seven
telemetry fields the stage synthesizes the other six and then raises KeyError
when the Has_CVE predicate reads the absent CVE column -- for every outcome
of the random draws.  The claim (and the hard contract of the spec) says the
stage never fails due to a missing input column.  The synthesized draws are
the fixed `synthConst`; the error arises at the column access and is
independent of them. -/
theorem detect_crash_on_missing_cve_column :
    detect_problems_and_score synthConst tNoCve = .error "KeyError: CVE identifier(s)" := by
  rfl

/-- Claim C10: process_data rejects a DataFrame with zero rows with
ValueError "Dataset is empty" before any cleaning, detection or scoring runs
(the conclusion holds for every cleaning-options record and every random
draw), and the upload route surfaces it as HTTP 400 with that detail. -/
theorem process_data_rejects_empty_dataset (rand : SynthData) (t : Table)
    (opts : CleaningOptions) (h : t.rows = []) :
    process_data rand t opts = .error "Dataset is empty"
    ∧ upload_file rand (.ok t) (.ok opts) = .httpError 400 "Dataset is empty" := by
  have hp : process_data rand t opts = .error "Dataset is empty" := by
    unfold process_data
    rw [h]
    simp
  refine ⟨hp, ?_⟩
  show (match process_data rand t opts with
        | .error e => UploadResult.httpError 400 e
        | .ok r => UploadResult.ok r) = UploadResult.httpError 400 "Dataset is empty"
  rw [hp]

/-- Witness for C10 at a concrete empty table. -/
theorem process_data_rejects_empty_dataset_witness :
    process_data synthConst emptyTbl {} = .error "Dataset is empty"
    ∧ upload_file synthConst (.ok emptyTbl) (.ok {}) = .httpError 400 "Dataset is empty" :=
  process_data_rejects_empty_dataset synthConst emptyTbl {} rfl

theorem lookupKpi_kpiSet_self (d : List (String × KpiVal)) (k : String) (v : KpiVal) :
    lookupKpi (kpiSet d k v) k = some v := by
  induction d with
  | nil => simp [kpiSet, lookupKpi, List.find?]
  | cons p rest ih =>
    cases hp : (p.1 == k) with
    | true => simp [kpiSet, hp, lookupKpi, List.find?]
    | false =>
      simp only [kpiSet, hp, Bool.false_eq_true, if_false]
      simp only [lookupKpi, List.find?] at ih ⊢
      rw [hp]
      exact ih

theorem lookupKpi_kpiSet_other (d : List (String × KpiVal)) (k k2 : String) (v : KpiVal)
    (h : k2 ≠ k) : lookupKpi (kpiSet d k v) k2 = lookupKpi d k2 := by
  have hkk2 : (k == k2) = false := beq_eq_false_iff_ne.mpr (Ne.symm h)
  induction d with
  | nil => simp [kpiSet, lookupKpi, List.find?, hkk2]
  | cons p rest ih =>
    cases hp : (p.1 == k) with
    | true =>
      have hp2 : (p.1 == k2) = false := by rw [eq_of_beq hp]; exact hkk2
      simp only [kpiSet, hp, if_true]
      simp only [lookupKpi, List.find?]
      rw [hkk2, hp2]
    | false =>
      simp only [kpiSet, hp, Bool.false_eq_true, if_false]
      simp only [lookupKpi, List.find?] at ih ⊢
      cases hq : (p.1 == k2) with
      | true => rfl
      | false => exact ih

theorem mem_kpiSet_of_mem (d : List (String × KpiVal)) (k : String) (v : KpiVal)
    (k0 : String) (v0 : KpiVal) (hm : (k0, v0) ∈ d) (hne : k0 ≠ k) :
    (k0, v0) ∈ kpiSet d k v := by
  induction d with
  | nil => simp at hm
  | cons p rest ih =>
    rcases List.mem_cons.mp hm with he | ht
    · cases hp : (p.1 == k) with
      | true =>
        exfalso
        have hp1 : p.1 = k := eq_of_beq hp
        rw [← he] at hp1
        exact hne hp1
      | false =>
        simp only [kpiSet, hp, Bool.false_eq_true, if_false]
        exact List.mem_cons.mpr (Or.inl he)
    · cases hp : (p.1 == k) with
      | true =>
        simp only [kpiSet, hp, if_true]
        exact List.mem_cons.mpr (Or.inr ht)
      | false =>
        simp only [kpiSet, hp, Bool.false_eq_true, if_false]
        exact List.mem_cons.mpr (Or.inr (ih ht))

/-- Claim C7, counterexample: on a table holding a Severity_Level column but
no CPU column, the avg_cpu aggregate is the first to fail, and the returned
dictionary keeps the four severity-percentage entries computed before the
failure next to the machine count and the error description -- it is NOT
just the total machine count plus an error description. -/
theorem calculate_kpis_partial_dict_counterexample :
    (calculate_kpis kpiPartialTbl).map Prod.fst =
      ["total_machines", "critical_pct", "high_pct", "medium_pct", "low_pct", "error"]
    ∧ (calculate_kpis kpiPartialTbl).map Prod.fst ≠ ["total_machines", "error"] := by
  have h1 : (calculate_kpis kpiPartialTbl).map Prod.fst =
      ["total_machines", "critical_pct", "high_pct", "medium_pct", "low_pct", "error"] := by
    rfl
  refine ⟨h1, ?_⟩
  rw [h1]
  decide

/-- Claim C7 as amended: when any aggregate inside calculate_kpis fails, the
exception never propagates (the function is total); the result is the
dictionary built up to the failure point -- every entry inserted before the
failing aggregate is retained -- with total_machines (re)assigned to the
machine count and the error description appended. -/
theorem calculate_kpis_degrades_preserving_partial (t : Table)
    (d : List (String × KpiVal)) (e : String)
    (h : runKpiSteps [] (kpiTrySteps t) = (d, some e)) :
    calculate_kpis t =
      kpiSet (kpiSet d "total_machines" (.nat t.nrows)) "error"
        (.text ("KPI calculation error: " ++ e))
    ∧ lookupKpi (calculate_kpis t) "total_machines" = some (.nat t.nrows)
    ∧ lookupKpi (calculate_kpis t) "error" =
        some (.text ("KPI calculation error: " ++ e))
    ∧ ∀ k v, (k, v) ∈ d → k ≠ "total_machines" → k ≠ "error" →
        (k, v) ∈ calculate_kpis t := by
  have hc : calculate_kpis t =
      kpiSet (kpiSet d "total_machines" (.nat t.nrows)) "error"
        (.text ("KPI calculation error: " ++ e)) := by
    unfold calculate_kpis
    rw [h]
  refine ⟨hc, ?_, ?_, ?_⟩
  · rw [hc, lookupKpi_kpiSet_other _ _ _ _ (by decide)]
    exact lookupKpi_kpiSet_self _ _ _
  · rw [hc]
    exact lookupKpi_kpiSet_self _ _ _
  · intro k v hm hk1 hk2
    rw [hc]
    exact mem_kpiSet_of_mem _ _ _ _ _ (mem_kpiSet_of_mem _ _ _ _ _ hm hk1) hk2

/-- Witness for the amended C7 theorem at the partial-failure table: the
count and the error description are present in the degraded dictionary. -/
theorem calculate_kpis_degrades_preserving_partial_witness :
    lookupKpi (calculate_kpis kpiPartialTbl) "total_machines" = some (.nat 1)
    ∧ lookupKpi (calculate_kpis kpiPartialTbl) "error" =
        some (.text ("KPI calculation error: " ++ "KeyError: CPU Usage (%)")) := by
  have h := calculate_kpis_degrades_preserving_partial kpiPartialTbl
    (runKpiSteps [] (kpiTrySteps kpiPartialTbl)).1 "KeyError: CPU Usage (%)" (by rfl)
  exact ⟨h.2.1, h.2.2.1⟩

theorem argmaxAux_lt (xs : List ℚ) (i bi : ℕ) (bv : ℚ) (h : bi < i) :
    argmaxAux xs i bi bv < i + xs.length := by
  induction xs generalizing i bi bv with
  | nil => simpa [argmaxAux] using h
  | cons x t ih =>
    unfold argmaxAux
    split
    · have := ih (i + 1) i x (by omega)
      simp only [List.length_cons]
      omega
    · have := ih (i + 1) bi bv (by omega)
      simp only [List.length_cons]
      omega

theorem argmaxIdx_lt (l : List ℚ) (h : l ≠ []) : argmaxIdx l < l.length := by
  cases l with
  | nil => exact absurd rfl h
  | cons x t =>
    have := argmaxAux_lt t 1 0 x (by omega)
    simp only [argmaxIdx, List.length_cons]
    omega

theorem bestIdx_lt (sys : RetrievalSystem) (q : String) :
    sys.bestIdx q < sys.issues.length := by
  have hne : ((List.range sys.issues.length).map (sys.sim q)) ≠ [] := by
    intro hm
    have hl := congrArg List.length hm
    simp only [List.length_map, List.length_range, List.length_nil] at hl
    exact sys.issues_nonempty (List.length_eq_zero.mp hl)
  have := argmaxIdx_lt _ hne
  simpa [RetrievalSystem.bestIdx] using this

theorem search_blank (sys : RetrievalSystem) (q : String) (k : ℕ) (th : ℚ)
    (hq : (pyStrip q).isEmpty = true) : sys.search (some q) k th = (none, 0, none) := by
  simp [RetrievalSystem.search, hq]

/-- Claim C6: for every non-blank query, search returns the best-scoring
indexed issue with its response exactly when the clamped best score reaches
the threshold, and otherwise reports the score with no content; a None or
blank query short-circuits to (none, 0, none) whatever the index holds; and
the returned score lies in [0, 1]. -/
theorem retrieval_search_spec (sys : RetrievalSystem) (q : String) (k : ℕ) (th : ℚ)
    (hq : (pyStrip q).isEmpty = false) :
    (sys.search (some q) k th).2.1 = clip01 (sys.sim q (sys.bestIdx q))
    ∧ ((sys.search (some q) k th).1.isSome ↔ th ≤ clip01 (sys.sim q (sys.bestIdx q)))
    ∧ (th ≤ clip01 (sys.sim q (sys.bestIdx q)) →
        sys.search (some q) k th =
          (some (sys.responses.getD (sys.bestIdx q) ""),
           clip01 (sys.sim q (sys.bestIdx q)),
           some (sys.issues.getD (sys.bestIdx q) "")))
    ∧ (¬ th ≤ clip01 (sys.sim q (sys.bestIdx q)) →
        sys.search (some q) k th = (none, clip01 (sys.sim q (sys.bestIdx q)), none))
    ∧ 0 ≤ (sys.search (some q) k th).2.1 ∧ (sys.search (some q) k th).2.1 ≤ 1
    ∧ (∀ k2 th2, sys.search none k2 th2 = (none, 0, none))
    ∧ (∀ q2, (pyStrip q2).isEmpty = true → sys.search (some q2) k th = (none, 0, none)) := by
  have hguard : ¬ sys.issues.length ≤ sys.bestIdx q := by
    have := bestIdx_lt sys q
    omega
  have h0 : sys.search (some q) k th =
      (if (pyStrip q).isEmpty = true then ((none : Option String), (0 : ℚ), (none : Option String))
       else if sys.issues.length ≤ sys.bestIdx q then (none, 0, none)
       else if th ≤ clip01 (sys.sim q (sys.bestIdx q)) then
         (some (sys.responses.getD (sys.bestIdx q) ""),
          clip01 (sys.sim q (sys.bestIdx q)),
          some (sys.issues.getD (sys.bestIdx q) ""))
       else (none, clip01 (sys.sim q (sys.bestIdx q)), none)) := rfl
  have hsearch : sys.search (some q) k th =
      (if th ≤ clip01 (sys.sim q (sys.bestIdx q)) then
        (some (sys.responses.getD (sys.bestIdx q) ""),
         clip01 (sys.sim q (sys.bestIdx q)),
         some (sys.issues.getD (sys.bestIdx q) ""))
       else (none, clip01 (sys.sim q (sys.bestIdx q)), none)) := by
    rw [h0, hq]
    simp only [Bool.false_eq_true, if_false, if_neg hguard]
  by_cases hth : th ≤ clip01 (sys.sim q (sys.bestIdx q))
  · rw [hsearch, if_pos hth]
    refine ⟨rfl, by simp [hth], fun _ => rfl, fun hc => absurd hth hc, ?_, ?_, ?_, ?_⟩
    · exact clip01_nonneg _
    · exact clip01_le_one _
    · intro k2 th2; rfl
    · intro q2 hq2; exact search_blank sys q2 k th hq2
  · rw [hsearch, if_neg hth]
    refine ⟨rfl, by simp [hth], fun hc => absurd hc hth, fun _ => rfl, ?_, ?_, ?_, ?_⟩
    · exact clip01_nonneg _
    · exact clip01_le_one _
    · intro k2 th2; rfl
    · intro q2 hq2; exact search_blank sys q2 k th hq2

/-- Witness for C6: the one-entry system returns its entry at full score for
a matching query, and the blank query short-circuits. -/
theorem retrieval_search_spec_witness :
    sysOne.search (some "printer not working") 1 (1/2) =
      (some "restart the printer", 1, some "printer not working")
    ∧ sysOne.search (some "   ") 1 (1/2) = (none, 0, none) := by
  have h := retrieval_search_spec sysOne "printer not working" 1 (1/2) (by rfl)
  constructor
  · have hm := h.2.2.1 (by norm_num [sysOne, clip01])
    rw [hm]
    norm_num [sysOne, clip01, RetrievalSystem.bestIdx, argmaxIdx, argmaxAux, List.range_succ]
  · exact h.2.2.2.2.2.2.2 "   " (by rfl)

/-- Claim C2: a chat request classified as a follow-up (which presupposes the
session solution is set) is never answered from the knowledge base: the
returned source is not "gpt_kb" -- it is gpt_context, gpt or error -- and the
session problem and solution are not overwritten, whatever the retriever
would have returned for the question (the retrieval oracle is universally
quantified, covering a high-confidence hit with score at least 0.5). -/
theorem followup_request_never_kb_sourced (env : ChatEnv) (question : String)
    (session : ChatSession) (h : is_followup_question question session = true) :
    (chat env question session).1.source ≠ "gpt_kb"
    ∧ ((chat env question session).1.source = "gpt_context"
       ∨ (chat env question session).1.source = "gpt"
       ∨ (chat env question session).1.source = "error")
    ∧ (chat env question session).2.problem = session.problem
    ∧ (chat env question session).2.solution = session.solution := by
  have hs : truthyOptStr session.solution = true := by
    cases hx : truthyOptStr session.solution
    · unfold is_followup_question at h
      rw [hx] at h
      simp at h
    · rfl
  have h1 : is_followup_question question
      { session with history := session.history ++ [{ role := "user", content := question }] }
      = true := h
  have hs1 : truthyOptStr
      (({ session with history := session.history ++ [{ role := "user", content := question }] }
        : ChatSession)).solution
      = true := hs
  simp only [chat, h1, hs1, Bool.and_self, if_true]
  cases hga : ask_gpt_with_context env question
      (build_conversation_context
        ({ session with history := session.history ++ [{ role := "user", content := question }] }
          : ChatSession)) with
  | ok a => simp
  | error e0 =>
    cases hr : env.retrieve question with
    | ok r =>
      by_cases hctx : truthyOptStr session.problem = true
      · simp [hctx]
      · have hctx2 : truthyOptStr session.problem = false := by
          cases hx : truthyOptStr session.problem
          · rfl
          · exact absurd hx hctx
        cases hap : env.ask_gpt question with
        | ok a2 => simp [hctx2, hap]
        | error e2 => simp [hctx2, hap]
    | error er =>
      by_cases hctx : truthyOptStr session.problem = true
      · simp [hctx, truthyOptStr_none]
      · have hctx2 : truthyOptStr session.problem = false := by
          cases hx : truthyOptStr session.problem
          · rfl
          · exact absurd hx hctx
        cases hap : env.ask_gpt question with
        | ok a2 => simp [hctx2, hap, truthyOptStr_none]
        | error e2 => simp [hctx2, hap, truthyOptStr_none]

/-- Witness for C2: a concrete follow-up ("still not working") on an engaged
session, against an environment whose retriever reports a perfect-score hit. -/
theorem followup_request_never_kb_sourced_witness :
    (chat envKB "still not working" sessionSolved).1.source ≠ "gpt_kb"
    ∧ ((chat envKB "still not working" sessionSolved).1.source = "gpt_context"
       ∨ (chat envKB "still not working" sessionSolved).1.source = "gpt"
       ∨ (chat envKB "still not working" sessionSolved).1.source = "error")
    ∧ (chat envKB "still not working" sessionSolved).2.problem = sessionSolved.problem
    ∧ (chat envKB "still not working" sessionSolved).2.solution = sessionSolved.solution :=
  followup_request_never_kb_sourced envKB "still not working" sessionSolved (by rfl)

end BotIT
